import Mathlib

/-!
Verification of the invoice-generator repository.

The repository's source under scrutiny is the backend authentication layer
(`backend/src/routes/auth.js`, `backend/src/middleware/auth.js`, the server
bootstrap) together with the specification of the document-generation core
(Computation Engine, Data Binder, Template Store, Render/Export Adapter).
The core's implementation files are not part of the provided sources, so the
Computation Engine and the template-substitution engine are modelled from the
spec; the authentication route handlers are embedded from the JavaScript
source directly.

Money amounts and quantities are modelled as rationals (fixed-point decimal
semantics); strings manipulated by the template engine are modelled as
`List Char`.
-/

namespace InvoiceGen

/-! ### Computation Engine (modelled from the spec) -/

/-- Modelled from the spec: a line item `{ description, quantity: decimal,
unitPrice: decimal }` (§3 LineItem); the Computation Engine implementation is
not among the provided source files. -/
structure LineItem where
  description : String
  quantity : ℚ
  unitPrice : ℚ
deriving DecidableEq

/-- `10 ^ m` as a rational: the scale factor for a currency with `m` minor-unit
digits. -/
def pow10 (m : ℕ) : ℚ := (10 : ℚ) ^ m

/-- Modelled from the spec: round a decimal to `m` minor-unit digits using
round-half-up (§3, §4.1): scale, add one half, take the floor, unscale. -/
def roundHalfUp (m : ℕ) (x : ℚ) : ℚ :=
  ((⌊x * pow10 m + 1 / 2⌋ : ℤ) : ℚ) / pow10 m

/-- Result record of the Computation Engine (§4.1 contract). -/
structure ComputedTotals where
  lineTotals : List ℚ
  subtotal : ℚ
  taxAmount : ℚ
  total : ℚ
deriving DecidableEq

/-- Modelled from the spec: the Computation Engine (§4.1); its implementation
file is not among the provided sources. Each line total is
`round(quantity * unitPrice)` at minor-unit precision, the subtotal is the sum
of the rounded line totals (no further rounding), the tax amount is
`round(subtotal * taxRatePercent / 100)`, and the total is their sum. -/
def computeTotals (m : ℕ) (items : List LineItem) (taxRatePercent : ℚ) :
    ComputedTotals :=
  let lineTotals := items.map (fun i => roundHalfUp m (i.quantity * i.unitPrice))
  let subtotal := lineTotals.sum
  let taxAmount := roundHalfUp m (subtotal * taxRatePercent / 100)
  { lineTotals := lineTotals
    subtotal := subtotal
    taxAmount := taxAmount
    total := subtotal + taxAmount }

/-- Modelled from the spec: the surrounding workflow's send/export gate
requires a non-empty line-item sequence (§3 Invoice invariant, §4.1 edge
case); the workflow implementation is not among the provided sources. -/
def canSend (items : List LineItem) : Bool :=
  !items.isEmpty

theorem pow10_pos (m : ℕ) : 0 < pow10 m :=
  pow_pos (by norm_num : (0:ℚ) < 10) m

/-- `roundHalfUp m x` is an integer multiple of `10 ^ (-m)`. -/
theorem roundHalfUp_isMultiple (m : ℕ) (x : ℚ) :
    ∃ k : ℤ, roundHalfUp m x = (k : ℚ) / pow10 m :=
  ⟨⌊x * pow10 m + 1 / 2⌋, rfl⟩

/-- `roundHalfUp` lands within half a minor unit of its argument, ties
rounding up: `x - h < round x ≤ x + h` for `h` half a minor unit. -/
theorem roundHalfUp_near (m : ℕ) (x : ℚ) :
    x - 1 / (2 * pow10 m) < roundHalfUp m x ∧
      roundHalfUp m x ≤ x + 1 / (2 * pow10 m) := by
  have hp : (0:ℚ) < pow10 m := pow10_pos m
  have h1 : ((⌊x * pow10 m + 1 / 2⌋ : ℤ) : ℚ) ≤ x * pow10 m + 1 / 2 :=
    Int.floor_le _
  have h2 : x * pow10 m + 1 / 2 < ((⌊x * pow10 m + 1 / 2⌋ : ℤ) : ℚ) + 1 :=
    Int.lt_floor_add_one _
  constructor
  · rw [roundHalfUp, lt_div_iff₀ hp]
    have : (x - 1 / (2 * pow10 m)) * pow10 m = x * pow10 m + 1 / 2 - 1 := by
      field_simp
      ring
    rw [this]
    linarith
  · rw [roundHalfUp, div_le_iff₀ hp]
    have : (x + 1 / (2 * pow10 m)) * pow10 m = x * pow10 m + 1 / 2 := by
      field_simp
      ring
    rw [this]
    exact h1

end InvoiceGen

namespace InvoiceGen

/-- C1: For every line-item sequence, the Computation Engine rounds each line
total to the currency's minor-unit precision using round-half-up
(`lineTotal[i] = round(quantity[i] * unitPrice[i])`), and the subtotal equals
the sum of these individually rounded line totals, with no additional rounding
applied to the sum itself. Round-half-up is characterised: each rounded value
is an integer multiple of the minor unit lying in the half-open band
`(x - h, x + h]` around the exact value, where `h` is half a minor unit (so
exact halves round up). -/
theorem C1_lineTotals_rounded_subtotal_sum (m : ℕ) (items : List LineItem)
    (r : ℚ) :
    (computeTotals m items r).lineTotals =
        items.map (fun i => roundHalfUp m (i.quantity * i.unitPrice)) ∧
      (computeTotals m items r).subtotal =
        ((computeTotals m items r).lineTotals).sum ∧
      ∀ x : ℚ, (∃ k : ℤ, roundHalfUp m x = (k : ℚ) / pow10 m) ∧
        x - 1 / (2 * pow10 m) < roundHalfUp m x ∧
        roundHalfUp m x ≤ x + 1 / (2 * pow10 m) := by
  refine ⟨rfl, rfl, fun x => ⟨roundHalfUp_isMultiple m x, (roundHalfUp_near m x).1,
    (roundHalfUp_near m x).2⟩⟩

end InvoiceGen


namespace InvoiceGen

/-- Evaluate `roundHalfUp` at a concrete argument: if the integer `k` brackets
the scaled, half-shifted value, the rounded result is `k` minor units. -/
theorem roundHalfUp_eq_of_bounds (m : ℕ) (x : ℚ) (k : ℤ)
    (h1 : (k : ℚ) ≤ x * pow10 m + 1 / 2) (h2 : x * pow10 m + 1 / 2 < k + 1) :
    roundHalfUp m x = (k : ℚ) / pow10 m := by
  have hk : ⌊x * pow10 m + 1 / 2⌋ = k :=
    Int.floor_eq_iff.mpr ⟨h1, by exact_mod_cast h2⟩
  rw [roundHalfUp, hk]

/-- The two line items of the spec's worked scenario (§8): qty 3 at 100.00 and
qty 1 at 49.99. -/
def scenarioItems : List LineItem :=
  [⟨"Consulting", 3, 100⟩, ⟨"Travel", 1, 4999 / 100⟩]

theorem scenario_lineTotal_one : roundHalfUp 2 ((3 : ℚ) * 100) = 300 := by
  rw [roundHalfUp_eq_of_bounds 2 ((3 : ℚ) * 100) 30000 (by norm_num [pow10])
    (by norm_num [pow10])]
  norm_num [pow10]

theorem scenario_lineTotal_two : roundHalfUp 2 ((1 : ℚ) * (4999 / 100)) = 4999 / 100 := by
  rw [roundHalfUp_eq_of_bounds 2 ((1 : ℚ) * (4999 / 100)) 4999 (by norm_num [pow10])
    (by norm_num [pow10])]
  norm_num [pow10]

theorem scenario_tax :
    roundHalfUp 2 ((300 + 4999 / 100 : ℚ) * (33 / 4) / 100) = 2887 / 100 := by
  rw [roundHalfUp_eq_of_bounds 2 ((300 + 4999 / 100 : ℚ) * (33 / 4) / 100) 2887
    (by norm_num [pow10]) (by norm_num [pow10])]
  norm_num [pow10]

theorem scenario_computeTotals :
    computeTotals 2 scenarioItems (33 / 4) =
      ⟨[300, 4999 / 100], 34999 / 100, 2887 / 100, 37886 / 100⟩ := by
  simp only [computeTotals, scenarioItems, List.map_cons, List.map_nil,
    List.sum_cons, List.sum_nil, scenario_lineTotal_one, scenario_lineTotal_two]
  rw [show (300 : ℚ) + (4999 / 100 + 0) = 300 + 4999 / 100 by ring, scenario_tax]
  simp only [ComputedTotals.mk.injEq]
  norm_num

end InvoiceGen

namespace InvoiceGen

/-- C2: For every line-item sequence and every tax rate ≥ 0, the Computation
Engine produces `taxAmount = round(subtotal * taxRatePercent / 100)` at
minor-unit precision and `total = subtotal + taxAmount` exactly; the spec's
scenario (line items qty 3 at 100.00 and qty 1 at 49.99, tax rate 8.25%)
yields line totals 300.00 and 49.99, subtotal 349.99, tax amount 28.87 and
total 378.86. -/
theorem C2_taxAmount_total (m : ℕ) (items : List LineItem) (r : ℚ)
    (_hr : 0 ≤ r) :
    (computeTotals m items r).taxAmount =
        roundHalfUp m ((computeTotals m items r).subtotal * r / 100) ∧
      (computeTotals m items r).total =
        (computeTotals m items r).subtotal + (computeTotals m items r).taxAmount ∧
      computeTotals 2 scenarioItems (33 / 4) =
        ⟨[300, 4999 / 100], 34999 / 100, 2887 / 100, 37886 / 100⟩ :=
  ⟨rfl, rfl, scenario_computeTotals⟩

/-- Witness for C2 at the spec's scenario: tax rate 8.25 ≥ 0 and the
conclusion instantiated there. -/
theorem C2_taxAmount_total_witness :
    (0 : ℚ) ≤ 33 / 4 ∧
      ((computeTotals 2 scenarioItems (33 / 4)).taxAmount =
          roundHalfUp 2 ((computeTotals 2 scenarioItems (33 / 4)).subtotal * (33 / 4) / 100) ∧
        (computeTotals 2 scenarioItems (33 / 4)).total =
          (computeTotals 2 scenarioItems (33 / 4)).subtotal +
            (computeTotals 2 scenarioItems (33 / 4)).taxAmount ∧
        computeTotals 2 scenarioItems (33 / 4) =
          ⟨[300, 4999 / 100], 34999 / 100, 2887 / 100, 37886 / 100⟩) :=
  ⟨by norm_num, C2_taxAmount_total 2 scenarioItems (33 / 4) (by norm_num)⟩

/-- C7: For the empty line-item sequence the Computation Engine returns
subtotal 0, tax amount 0 and total 0 as a valid result (it does not fail:
`computeTotals` is a total function), while the surrounding workflow's
send/export gate rejects such an invoice. -/
theorem C7_empty_items_zero_totals (m : ℕ) (r : ℚ) :
    computeTotals m [] r = ⟨[], 0, 0, 0⟩ ∧ canSend [] = false := by
  constructor
  · have h0 : roundHalfUp m ((0 : ℚ) * r / 100) = 0 := by
      rw [show ((0 : ℚ) * r / 100) = 0 by ring,
        roundHalfUp_eq_of_bounds m 0 0 (by norm_num) (by norm_num)]
      norm_num
    simp only [computeTotals, List.map_nil, List.sum_nil, h0]
    norm_num
  · rfl

end InvoiceGen

namespace InvoiceGen

/-! ### Data Binder: template substitution (modelled from the spec) -/

/-- The opening-brace character of the placeholder grammar. -/
def braceOpen : Char := Char.ofNat 123

/-- The closing-brace character of the placeholder grammar. -/
def braceClose : Char := Char.ofNat 125

/-- Modelled from the spec: HTML-entity escaping of a single character (§4.3
escaping policy); the Data Binder implementation is not among the provided
source files. The five HTML special characters map to entities, all others
pass through. -/
def escapeChar (c : Char) : List Char :=
  if c = '&' then ['&', 'a', 'm', 'p', ';']
  else if c = '<' then ['&', 'l', 't', ';']
  else if c = '>' then ['&', 'g', 't', ';']
  else if c = '"' then ['&', 'q', 'u', 'o', 't', ';']
  else if c = Char.ofNat 39 then ['&', '#', '3', '9', ';']
  else [c]

/-- HTML-entity escaping of a string (modelled as a character list). -/
def htmlEscape (v : List Char) : List Char :=
  (v.map escapeChar).flatten

/-- Modelled from the spec: the RenderContext (§3): flat scalar fields plus
one row of fields per line item. -/
structure RenderContext where
  scalars : List (String × List Char)
  items : List (List (String × List Char))

/-- First-match key lookup in an association list of context fields. -/
def lookupKey (ctx : List (String × List Char)) (n : String) :
    Option (List Char) :=
  match ctx with
  | [] => none
  | (k, v) :: rest => if k = n then some v else lookupKey rest n

/-- Resolve a scalar placeholder (§4.3): a matching key substitutes the
HTML-escaped value, a missing key substitutes the empty string. -/
def resolveScalar (ctx : List (String × List Char)) (n : String) : List Char :=
  match lookupKey ctx n with
  | some v => htmlEscape v
  | none => []

/-- A parsed fragment of the repeating-block sub-template: literal text or a
scalar placeholder `(\x7b\x7bidentifier\x7d\x7d)`. -/
inductive ItemSeg where
  | lit : List Char → ItemSeg
  | scalar : String → ItemSeg
deriving DecidableEq

/-- A parsed fragment of a template: literal text, a scalar placeholder, or
the repeating block `\x7b\x7b#each items\x7d\x7d ... \x7b\x7b/each\x7d\x7d`
wrapping a sub-template (no nested blocks, per §6). -/
inductive Seg where
  | lit : List Char → Seg
  | scalar : String → Seg
  | each : List ItemSeg → Seg
deriving DecidableEq

/-- Render one sub-template fragment against a line item's row plus the outer
scalar context (§4.3: the row is consulted first, then the outer scalars,
and a miss in both substitutes the empty string). -/
def renderItemSeg (outer row : List (String × List Char)) :
    ItemSeg → List Char
  | .lit s => s
  | .scalar n =>
    match lookupKey row n with
    | some v => htmlEscape v
    | none => resolveScalar outer n

/-- Render one template fragment: literal text verbatim, scalar placeholders
via `resolveScalar`, the repeating block once per line item in order. -/
def renderSeg (ctx : RenderContext) : Seg → List Char
  | .lit s => s
  | .scalar n => resolveScalar ctx.scalars n
  | .each body =>
    (ctx.items.map fun row => (body.map (renderItemSeg ctx.scalars row)).flatten).flatten

/-- Modelled from the spec: the Data Binder's substitution pass (§4.3): a
parsed template is rendered fragment by fragment into the output HTML. -/
def render (t : List Seg) (ctx : RenderContext) : List Char :=
  (t.map (renderSeg ctx)).flatten

/-- The literal character sequence of a scalar placeholder token
`\x7b\x7bidentifier\x7d\x7d`. -/
def tokenChars (id : String) : List Char :=
  braceOpen :: braceOpen :: (id.toList ++ [braceClose, braceClose])

/-- `occursIn pat l` decides whether `pat` occurs as a contiguous substring
of `l`. -/
def occursIn (pat : List Char) : List Char → Bool
  | [] => decide (pat = [])
  | c :: rest => pat.isPrefixOf (c :: rest) || occursIn pat rest

end InvoiceGen

namespace InvoiceGen

/-- A successful lookup returns the value of some pair of the context. -/
theorem lookupKey_mem {ctx : List (String × List Char)} {n : String}
    {v : List Char} (h : lookupKey ctx n = some v) : ∃ k, (k, v) ∈ ctx := by
  induction ctx with
  | nil => simp [lookupKey] at h
  | cons p rest ih =>
    obtain ⟨k, w⟩ := p
    rw [lookupKey] at h
    split at h
    · exact ⟨k, by simp [Option.some_inj.mp h]⟩
    · obtain ⟨k2, hk2⟩ := ih h
      exact ⟨k2, List.mem_cons_of_mem _ hk2⟩

/-- `escapeChar` only emits an opening brace when its input is one. -/
theorem mem_escapeChar_brace {c : Char} (h : braceOpen ∈ escapeChar c) :
    c = braceOpen := by
  unfold escapeChar at h
  split_ifs at h <;> first
    | exact absurd h (by decide)
    | exact (List.mem_singleton.mp h).symm

/-- `htmlEscape` introduces no opening brace that was not in its input. -/
theorem mem_htmlEscape_brace {v : List Char} (h : braceOpen ∈ htmlEscape v) :
    braceOpen ∈ v := by
  rw [htmlEscape, List.mem_flatten] at h
  obtain ⟨l, hl, hc⟩ := h
  rw [List.mem_map] at hl
  obtain ⟨c, hcv, rfl⟩ := hl
  exact mem_escapeChar_brace hc ▸ hcv

/-- Scalar resolution emits no opening brace when no context value holds
one. -/
theorem resolveScalar_braceFree {ctx : List (String × List Char)} {n : String}
    (hctx : ∀ p ∈ ctx, braceOpen ∉ p.2) :
    braceOpen ∉ resolveScalar ctx n := by
  intro hmem
  unfold resolveScalar at hmem
  cases hl : lookupKey ctx n with
  | none => simp only [hl] at hmem; exact List.not_mem_nil _ hmem
  | some v =>
    simp only [hl] at hmem
    obtain ⟨k, hk⟩ := lookupKey_mem hl
    exact hctx (k, v) hk (mem_htmlEscape_brace hmem)

/-- Brace-freeness of a sub-template fragment's literal text. -/
def itemSegBraceFree : ItemSeg → Prop
  | .lit s => braceOpen ∉ s
  | .scalar _ => True

/-- Brace-freeness of a template fragment's literal text. -/
def segBraceFree : Seg → Prop
  | .lit s => braceOpen ∉ s
  | .scalar _ => True
  | .each body => ∀ i ∈ body, itemSegBraceFree i

/-- Brace-freeness of all scalar and row values of a render context. -/
def ctxBraceFree (ctx : RenderContext) : Prop :=
  (∀ p ∈ ctx.scalars, braceOpen ∉ p.2) ∧
    ∀ row ∈ ctx.items, ∀ p ∈ row, braceOpen ∉ p.2

theorem renderItemSeg_braceFree {outer row : List (String × List Char)}
    (houter : ∀ p ∈ outer, braceOpen ∉ p.2)
    (hrow : ∀ p ∈ row, braceOpen ∉ p.2) (i : ItemSeg)
    (hi : itemSegBraceFree i) : braceOpen ∉ renderItemSeg outer row i := by
  cases i with
  | lit s => exact hi
  | scalar n =>
    intro hmem
    unfold renderItemSeg at hmem
    cases hl : lookupKey row n with
    | none =>
      simp only [hl] at hmem
      exact resolveScalar_braceFree houter hmem
    | some v =>
      simp only [hl] at hmem
      obtain ⟨k, hk⟩ := lookupKey_mem hl
      exact hrow (k, v) hk (mem_htmlEscape_brace hmem)

/-- The rendered output holds no opening brace when the template's literal
text and the context's values hold none. -/
theorem render_braceFree (t : List Seg) (ctx : RenderContext)
    (hlits : ∀ s ∈ t, segBraceFree s) (hctx : ctxBraceFree ctx) :
    braceOpen ∉ render t ctx := by
  intro hmem
  rw [render, List.mem_flatten] at hmem
  obtain ⟨l, hl, hc⟩ := hmem
  rw [List.mem_map] at hl
  obtain ⟨s, hst, rfl⟩ := hl
  have hs := hlits s hst
  cases s with
  | lit str => exact hs hc
  | scalar n =>
    simp only [renderSeg] at hc
    exact resolveScalar_braceFree hctx.1 hc
  | each body =>
    simp only [renderSeg] at hc
    rw [List.mem_flatten] at hc
    obtain ⟨l2, hl2, hc2⟩ := hc
    rw [List.mem_map] at hl2
    obtain ⟨row, hrowmem, rfl⟩ := hl2
    rw [List.mem_flatten] at hc2
    obtain ⟨l3, hl3, hc3⟩ := hc2
    rw [List.mem_map] at hl3
    obtain ⟨i, hib, rfl⟩ := hl3
    exact renderItemSeg_braceFree hctx.1 (hctx.2 row hrowmem) i (hs i hib) hc3

/-- A pattern that occurs in a list has its head character in the list. -/
theorem occursIn_head_mem {c : Char} {p l : List Char}
    (h : occursIn (c :: p) l = true) : c ∈ l := by
  induction l with
  | nil => simp [occursIn] at h
  | cons d rest ih =>
    rw [occursIn, Bool.or_eq_true] at h
    cases h with
    | inl h =>
      have hpre : (c :: p) <+: (d :: rest) := List.isPrefixOf_iff_prefix.mp h
      have : c = d := (List.cons_prefix_cons.mp hpre).1
      exact this ▸ List.mem_cons_self _ _
    | inr h => exact List.mem_cons_of_mem _ (ih h)

/-- A placeholder token cannot occur in brace-free output. -/
theorem not_occursIn_token (id : String) (out : List Char)
    (h : braceOpen ∉ out) : occursIn (tokenChars id) out = false := by
  cases hoc : occursIn (tokenChars id) out with
  | false => rfl
  | true =>
    rw [tokenChars] at hoc
    exact absurd (occursIn_head_mem hoc) h

theorem render_append (t1 t2 : List Seg) (ctx : RenderContext) :
    render (t1 ++ t2) ctx = render t1 ctx ++ render t2 ctx := by
  simp [render]

/-- An unknown scalar placeholder contributes nothing to the output: the
template renders as if the placeholder token were absent. -/
theorem render_unknown_scalar_skip (pre post : List Seg) (ctx : RenderContext)
    (id : String) (h : lookupKey ctx.scalars id = none) :
    render (pre ++ Seg.scalar id :: post) ctx = render (pre ++ post) ctx := by
  rw [render_append, render_append]
  congr 1
  show render (Seg.scalar id :: post) ctx = render post ctx
  simp [render, renderSeg, resolveScalar, h]

end InvoiceGen

namespace InvoiceGen

/-- C3: For every template and render context, a placeholder whose identifier
has no matching key resolves to the empty string (substitution is a total
function, so it never throws), the placeholder contributes nothing to the
output, and the literal placeholder token does not appear in the output HTML
(stated for templates whose literal text and context values hold no opening
brace, as produced by the closed placeholder grammar's tagged token scan). -/
theorem C3_unknown_placeholder_empty (t : List Seg) (ctx : RenderContext)
    (id : String) (hid : lookupKey ctx.scalars id = none)
    (hlits : ∀ s ∈ t, segBraceFree s) (hctx : ctxBraceFree ctx) :
    resolveScalar ctx.scalars id = [] ∧
      (∀ pre post, render (pre ++ Seg.scalar id :: post) ctx =
        render (pre ++ post) ctx) ∧
      occursIn (tokenChars id) (render t ctx) = false := by
  refine ⟨?_, fun pre post => render_unknown_scalar_skip pre post ctx id hid,
    not_occursIn_token id _ (render_braceFree t ctx hlits hctx)⟩
  simp [resolveScalar, hid]

end InvoiceGen

namespace InvoiceGen

/-- A one-placeholder template used to witness C3. -/
def wtTemplate : List Seg := [Seg.scalar "missing"]

/-- A render context without the key `missing`, used to witness C3. -/
def wtCtx : RenderContext := ⟨[("clientName", ['B', 'o', 'b'])], []⟩

/-- Witness for C3: in a context without the key `missing`, the placeholder
resolves to the empty string, contributes nothing, and its token is absent
from the output. -/
theorem C3_unknown_placeholder_empty_witness :
    lookupKey wtCtx.scalars "missing" = none ∧
      (resolveScalar wtCtx.scalars "missing" = [] ∧
        (∀ pre post, render (pre ++ Seg.scalar "missing" :: post) wtCtx =
          render (pre ++ post) wtCtx) ∧
        occursIn (tokenChars "missing") (render wtTemplate wtCtx) = false) := by
  refine ⟨by decide, C3_unknown_placeholder_empty wtTemplate wtCtx "missing"
    (by decide) ?_ ?_⟩
  · intro s hs
    simp only [wtTemplate, List.mem_singleton] at hs
    subst hs
    exact trivial
  · constructor
    · intro p hp
      simp only [wtCtx, List.mem_singleton] at hp
      subst hp
      decide
    · intro row hrow
      simp [wtCtx] at hrow

end InvoiceGen

namespace InvoiceGen

/-- The characters of the raw markup `<script>` of the spec's escaping
scenario (§8). -/
def scriptChars : List Char := ['<', 's', 'c', 'r', 'i', 'p', 't', '>']

/-- The HTML-escaped form of `<script>`. -/
def escapedScript : List Char :=
  ['&', 'l', 't', ';', 's', 'c', 'r', 'i', 'p', 't', '&', 'g', 't', ';']

/-- A template whose scalar placeholder is the client name, for the escaping
scenario. -/
def clientNameTemplate : List Seg :=
  [Seg.lit ['B', 'i', 'l', 'l', ' ', 'T', 'o', ':', ' '], Seg.scalar "clientName"]

/-- A render context whose client name is the raw markup `<script>`. -/
def scriptClientCtx : RenderContext := ⟨[("clientName", scriptChars)], []⟩

/-- C4: Every scalar value substituted by the Data Binder appears in the
output as its HTML-entity-escaped form, both for outer scalar placeholders
and for the rows of the repeating block; in the spec's scenario a client name
equal to `<script>` appears escaped in the rendered document and never as raw
markup. -/
theorem C4_substituted_values_escaped (ctx : RenderContext) (id : String)
    (v : List Char) (h : lookupKey ctx.scalars id = some v) :
    resolveScalar ctx.scalars id = htmlEscape v ∧
      (∀ outer row n w, lookupKey row n = some w →
        renderItemSeg outer row (ItemSeg.scalar n) = htmlEscape w) ∧
      render clientNameTemplate scriptClientCtx =
        ['B', 'i', 'l', 'l', ' ', 'T', 'o', ':', ' '] ++ escapedScript ∧
      occursIn scriptChars (render clientNameTemplate scriptClientCtx) = false ∧
      occursIn escapedScript (render clientNameTemplate scriptClientCtx) = true := by
  refine ⟨by simp [resolveScalar, h], fun outer row n w hw => ?_, by decide,
    by decide, by decide⟩
  simp [renderItemSeg, hw]

/-- Witness for C4 at the spec's escaping scenario. -/
theorem C4_substituted_values_escaped_witness :
    lookupKey scriptClientCtx.scalars "clientName" = some scriptChars ∧
      (resolveScalar scriptClientCtx.scalars "clientName" =
          htmlEscape scriptChars ∧
        (∀ outer row n w, lookupKey row n = some w →
          renderItemSeg outer row (ItemSeg.scalar n) = htmlEscape w) ∧
        render clientNameTemplate scriptClientCtx =
          ['B', 'i', 'l', 'l', ' ', 'T', 'o', ':', ' '] ++ escapedScript ∧
        occursIn scriptChars (render clientNameTemplate scriptClientCtx) = false ∧
        occursIn escapedScript (render clientNameTemplate scriptClientCtx) = true) :=
  ⟨by decide, C4_substituted_values_escaped scriptClientCtx "clientName"
    scriptChars (by decide)⟩

end InvoiceGen

namespace InvoiceGen

/-- Whether a sub-template placeholder has a matching key in its row or in
the outer scalars. -/
def itemSegHasKey (outer row : List (String × List Char)) : ItemSeg → Bool
  | .lit _ => true
  | .scalar n => (lookupKey row n).isSome || (lookupKey outer n).isSome

/-- Whether a template fragment's placeholders all have matching keys. -/
def segHasKey (ctx : RenderContext) : Seg → Bool
  | .lit _ => true
  | .scalar n => (lookupKey ctx.scalars n).isSome
  | .each body => ctx.items.all fun row => body.all (itemSegHasKey ctx.scalars row)

/-- A context has no missing keys for a template when every placeholder of
the template resolves. -/
def noMissingKeys (t : List Seg) (ctx : RenderContext) : Bool :=
  t.all (segHasKey ctx)

/-- A template with a scalar placeholder and a repeating block, used to
witness C8. -/
def demoTemplate : List Seg :=
  [Seg.lit ['<', 'p', '>'], Seg.scalar "clientName",
    Seg.each [ItemSeg.scalar "description"]]

/-- A render context resolving every placeholder of `demoTemplate`. -/
def demoCtx : RenderContext :=
  ⟨[("clientName", ['B', 'o', 'b'])], [[("description", ['X'])]]⟩

/-- C8: Template substitution is deterministic: on a context with no missing
keys, binding the same invoice and template twice yields identical HTML both
times (substitution is a pure function of the template and context). -/
theorem C8_bind_deterministic (t : List Seg) (ctx : RenderContext)
    (_h : noMissingKeys t ctx = true) (out1 out2 : List Char)
    (h1 : out1 = render t ctx) (h2 : out2 = render t ctx) : out1 = out2 :=
  h1.trans h2.symm

/-- Witness for C8: `demoCtx` resolves every placeholder of `demoTemplate`
and two renders agree. -/
theorem C8_bind_deterministic_witness :
    noMissingKeys demoTemplate demoCtx = true ∧
      render demoTemplate demoCtx = render demoTemplate demoCtx :=
  ⟨by decide, C8_bind_deterministic demoTemplate demoCtx (by decide)
    (render demoTemplate demoCtx) (render demoTemplate demoCtx) rfl rfl⟩

end InvoiceGen

namespace InvoiceGen

/-! ### Backend authentication routes
(embedded from `backend/src/routes/auth.js`) -/

/-- The default invoice template HTML seeded at registration
(`getDefaultTemplateHTML` in `routes/auth.js`). -/
def getDefaultTemplateHTML : String :=
  "\n    <div class=\"invoice-template\">\n      <div class=\"header\">\n        <div class=\"company-info\">\n          <h1>\x7b\x7bcompanyName\x7d\x7d</h1>\n          <p>\x7b\x7bcompanyAddress\x7d\x7d</p>\n        </div>\n        <div class=\"invoice-info\">\n          <h2>INVOICE</h2>\n          <p><strong>Invoice #:</strong> \x7b\x7binvoiceNumber\x7d\x7d</p>\n          <p><strong>Date:</strong> \x7b\x7bissueDate\x7d\x7d</p>\n          <p><strong>Due Date:</strong> \x7b\x7bdueDate\x7d\x7d</p>\n        </div>\n      </div>\n      \n      <div class=\"client-info\">\n        <h3>Bill To:</h3>\n        <p>\x7b\x7bclientName\x7d\x7d</p>\n        <p>\x7b\x7bclientAddress\x7d\x7d</p>\n      </div>\n      \n      <div class=\"items\">\n        <table>\n          <thead>\n            <tr>\n              <th>Description</th>\n              <th>Qty</th>\n              <th>Unit Price</th>\n              <th>Total</th>\n            </tr>\n          </thead>\n          <tbody>\n            \x7b\x7b#each items\x7d\x7d\n            <tr>\n              <td>\x7b\x7bdescription\x7d\x7d</td>\n              <td>\x7b\x7bquantity\x7d\x7d</td>\n              <td>\x7b\x7bunitPrice\x7d\x7d</td>\n              <td>\x7b\x7btotal\x7d\x7d</td>\n            </tr>\n            \x7b\x7b/each\x7d\x7d\n          </tbody>\n        </table>\n      </div>\n      \n      <div class=\"totals\">\n        <p><strong>Subtotal:</strong> \x7b\x7bsubtotal\x7d\x7d</p>\n        <p><strong>Tax (\x7b\x7btaxRate\x7d\x7d%):</strong> \x7b\x7btaxAmount\x7d\x7d</p>\n        <p><strong>Total:</strong> \x7b\x7btotal\x7d\x7d</p>\n      </div>\n      \n      <div class=\"footer\">\n        <p>\x7b\x7bnotes\x7d\x7d</p>\n        <p>\x7b\x7bterms\x7d\x7d</p>\n      </div>\n    </div>\n  "

/-- The default invoice template CSS seeded at registration
(`getDefaultTemplateCSS` in `routes/auth.js`). -/
def getDefaultTemplateCSS : String :=
  "\n    .invoice-template \x7b\n      font-family: Arial, sans-serif;\n      max-width: 800px;\n      margin: 0 auto;\n      padding: 20px;\n    \x7d\n    \n    .header \x7b\n      display: flex;\n      justify-content: space-between;\n      margin-bottom: 30px;\n      border-bottom: 2px solid #333;\n      padding-bottom: 20px;\n    \x7d\n    \n    .company-info h1 \x7b\n      color: #333;\n      margin: 0 0 10px 0;\n    \x7d\n    \n    .invoice-info h2 \x7b\n      color: #333;\n      margin: 0 0 15px 0;\n    \x7d\n    \n    .client-info \x7b\n      margin-bottom: 30px;\n    \x7d\n    \n    .client-info h3 \x7b\n      color: #333;\n      border-bottom: 1px solid #ccc;\n      padding-bottom: 5px;\n    \x7d\n    \n    table \x7b\n      width: 100%;\n      border-collapse: collapse;\n      margin-bottom: 20px;\n    \x7d\n    \n    th, td \x7b\n      padding: 10px;\n      text-align: left;\n      border-bottom: 1px solid #ddd;\n    \x7d\n    \n    th \x7b\n      background-color: #f5f5f5;\n      font-weight: bold;\n    \x7d\n    \n    .totals \x7b\n      text-align: right;\n      margin-bottom: 30px;\n    \x7d\n    \n    .totals p \x7b\n      margin: 5px 0;\n    \x7d\n    \n    .footer \x7b\n      border-top: 1px solid #ccc;\n      padding-top: 20px;\n      font-size: 14px;\n      color: #666;\n    \x7d\n  "
/-- A persisted user record, with the fields the register handler stores
(`prisma.user.create` data) plus the DB-managed `logo` and `createdAt`. The
`password` field holds the bcrypt hash. -/
structure UserRec where
  id : Nat
  email : String
  password : String
  firstName : String
  lastName : String
  company : String
  phone : String
  website : String
  address : String
  city : String
  state : String
  zipCode : String
  country : String
  taxId : String
  currency : String
  timezone : String
  logo : String
  createdAt : String
deriving DecidableEq

/-- A persisted template record (`prisma.template.create` data plus id). -/
structure TemplateRec where
  id : Nat
  name : String
  description : String
  html : String
  css : String
  isDefault : Bool
  isActive : Bool
  userId : Nat
deriving DecidableEq

/-- The persisted state the auth routes read and write: user and template
tables plus the id allocator of the backing store. -/
structure Database where
  users : List UserRec
  templates : List TemplateRec
  nextId : Nat
deriving DecidableEq

/-- An HTTP response of the auth routes: status code, the `success` flag, the
(error or success) message, and the `user` object of the `data` payload as a
key/value list (empty when the response carries no user). Token issuance
(`generateTokens`) is an external collaborator and is not part of the
response model. -/
structure ApiResponse where
  status : Nat
  success : Bool
  message : String
  userFields : List (String × String)
deriving DecidableEq

/-- `prisma.user.findUnique({ where: { email } })`. -/
def findUserByEmail (users : List UserRec) (email : String) : Option UserRec :=
  users.find? (fun u => u.email == email)

/-- `prisma.user.findUnique({ where: { id } })`. -/
def findUserById (users : List UserRec) (uid : Nat) : Option UserRec :=
  users.find? (fun u => u.id == uid)

/-- A register request: the destructured body fields (`currency` and
`timezone` optional with defaults `USD`/`UTC`), plus the outcome of the
external `express-validator` rules for this request (`valOk` models
`validationResult(req).isEmpty()`). -/
structure RegisterReq where
  email : String
  password : String
  firstName : String
  lastName : String
  company : String
  phone : String
  website : String
  address : String
  city : String
  state : String
  zipCode : String
  country : String
  taxId : String
  currency : Option String
  timezone : Option String
  valOk : Bool
deriving DecidableEq

/-- Which of the register handler's fallible external steps succeed:
`bcrypt` hashing, `prisma.user.create`, and the steps after user creation
(`generateTokens` and `prisma.template.create`, represented jointly by
`templateCreateOk`). A `false` models the corresponding call throwing, which
the handler's catch-all turns into a 500 response. -/
structure RegisterOracle where
  hashOk : Bool
  userCreateOk : Bool
  templateCreateOk : Bool
deriving DecidableEq

/-- The user record `prisma.user.create` persists for a register request:
request fields, hashed password, defaulted currency/timezone, DB-defaulted
`logo`/`createdAt`, and the allocator's next id. -/
def createdUser (db : Database) (req : RegisterReq) (hash : String → String) :
    UserRec :=
  { id := db.nextId
    email := req.email
    password := hash req.password
    firstName := req.firstName
    lastName := req.lastName
    company := req.company
    phone := req.phone
    website := req.website
    address := req.address
    city := req.city
    state := req.state
    zipCode := req.zipCode
    country := req.country
    taxId := req.taxId
    currency := req.currency.getD "USD"
    timezone := req.timezone.getD "UTC"
    logo := ""
    createdAt := "" }

/-- The default template record `prisma.template.create` persists for the
new user: named `Default Template`, flagged `isDefault` and `isActive`,
owned by the new user. -/
def seededTemplate (db : Database) : TemplateRec :=
  { id := db.nextId + 1
    name := "Default Template"
    description := "Default invoice template"
    html := getDefaultTemplateHTML
    css := getDefaultTemplateCSS
    isDefault := true
    isActive := true
    userId := db.nextId }

/-- The `select` clause of `prisma.user.create` in the register handler: the
user object returned in the 201 response. -/
def registerSelectFields (u : UserRec) : List (String × String) :=
  [("id", toString u.id), ("email", u.email), ("firstName", u.firstName),
    ("lastName", u.lastName), ("company", u.company), ("logo", u.logo),
    ("currency", u.currency), ("timezone", u.timezone),
    ("createdAt", u.createdAt)]

/-- The `POST /api/auth/register` handler: validation check, duplicate-email
check, password hashing, user creation, token generation and default-template
creation, with the catch-all mapping any thrown step to a 500 response. The
fallible external steps are driven by the oracle `o`; `hash` is the external
bcrypt hash. Note the handler wraps no transaction around the two creates:
a failure after `prisma.user.create` leaves the user row persisted. -/
def register (db : Database) (req : RegisterReq) (o : RegisterOracle)
    (hash : String → String) : ApiResponse × Database :=
  if !req.valOk then
    (⟨400, false, "Validation failed", []⟩, db)
  else if (findUserByEmail db.users req.email).isSome then
    (⟨400, false, "User already exists with this email", []⟩, db)
  else if !o.hashOk then
    (⟨500, false, "Internal server error", []⟩, db)
  else if !o.userCreateOk then
    (⟨500, false, "Internal server error", []⟩, db)
  else if !o.templateCreateOk then
    (⟨500, false, "Internal server error", []⟩,
      ⟨db.users ++ [createdUser db req hash], db.templates, db.nextId + 1⟩)
  else
    (⟨201, true, "User registered successfully",
        registerSelectFields (createdUser db req hash)⟩,
      ⟨db.users ++ [createdUser db req hash],
        db.templates ++ [seededTemplate db], db.nextId + 2⟩)

/-- A login request: destructured body fields plus the external validator's
outcome. -/
structure LoginReq where
  email : String
  password : String
  valOk : Bool
deriving DecidableEq

/-- The user object the login handler builds by hand for the 200 response
(`userData` in the source: all profile fields, without `password`). -/
def loginUserData (u : UserRec) : List (String × String) :=
  [("id", toString u.id), ("email", u.email), ("firstName", u.firstName),
    ("lastName", u.lastName), ("company", u.company), ("logo", u.logo),
    ("currency", u.currency), ("timezone", u.timezone),
    ("createdAt", u.createdAt)]

/-- The `POST /api/auth/login` handler: validation check, user lookup by
email, password comparison via the external `bcrypt.compare` (the `compare`
argument). An unknown email and a wrong password produce the same 401
response. -/
def login (db : Database) (req : LoginReq)
    (compare : String → String → Bool) : ApiResponse :=
  if !req.valOk then
    ⟨400, false, "Validation failed", []⟩
  else
    match findUserByEmail db.users req.email with
    | none => ⟨401, false, "Invalid credentials", []⟩
    | some user =>
      if !(compare req.password user.password) then
        ⟨401, false, "Invalid credentials", []⟩
      else
        ⟨200, true, "Login successful", loginUserData user⟩

/-- The `select` clause of the refresh handler's user lookup: as the
register select but without `createdAt`. -/
def refreshSelectFields (u : UserRec) : List (String × String) :=
  [("id", toString u.id), ("email", u.email), ("firstName", u.firstName),
    ("lastName", u.lastName), ("company", u.company), ("logo", u.logo),
    ("currency", u.currency), ("timezone", u.timezone)]

/-- The `POST /api/auth/refresh` handler: a missing or empty token yields
400, a token the external `jwt.verify` rejects yields 401 (via the catch),
an unknown user id yields 401, and otherwise the response carries the
selected user fields. `verify` models `jwt.verify` returning the `userId`
claim, `none` when verification throws. -/
def refresh (db : Database) (refreshToken : Option String)
    (verify : String → Option Nat) : ApiResponse :=
  match refreshToken with
  | none => ⟨400, false, "Refresh token is required", []⟩
  | some tok =>
    if tok.isEmpty then
      ⟨400, false, "Refresh token is required", []⟩
    else
      match verify tok with
      | none => ⟨401, false, "Invalid refresh token", []⟩
      | some uid =>
        match findUserById db.users uid with
        | none => ⟨401, false, "User not found", []⟩
        | some user =>
          ⟨200, true, "Token refreshed successfully", refreshSelectFields user⟩

/-- The templates of `db` owned by `uid`. -/
def templatesOf (db : Database) (uid : Nat) : List TemplateRec :=
  db.templates.filter (fun t => t.userId == uid)

/-- The templates of `db` owned by `uid` and flagged default. -/
def defaultTemplatesOf (db : Database) (uid : Nat) : List TemplateRec :=
  db.templates.filter (fun t => t.userId == uid && t.isDefault)

/-- The spec's template-store invariant: at most one default template per
owner. -/
def atMostOneDefault (db : Database) : Prop :=
  ∀ uid, (defaultTemplatesOf db uid).length ≤ 1

/-- The keys of a response's user object. -/
def fieldKeys (fields : List (String × String)) : List String :=
  fields.map (·.1)

end InvoiceGen

namespace InvoiceGen

/-- C5: Registration success seeds the new user with exactly one template,
flagged `isDefault` and `isActive`, and preserves the at-most-one-default
invariant: in a database satisfying the invariant in which the new user's id
owns no template yet, the post-registration database gives the new user
exactly the seeded default template and still satisfies the invariant. -/
theorem C5_register_seeds_unique_default (db : Database) (req : RegisterReq)
    (o : RegisterOracle) (hash : String → String)
    (hinv : atMostOneDefault db)
    (hfresh : ∀ t ∈ db.templates, t.userId ≠ db.nextId)
    (hok : (register db req o hash).1.status = 201) :
    templatesOf (register db req o hash).2 db.nextId = [seededTemplate db] ∧
      (seededTemplate db).isDefault = true ∧
      (seededTemplate db).isActive = true ∧
      atMostOneDefault (register db req o hash).2 := by
  unfold register at hok ⊢
  split_ifs at hok ⊢
  · simp at hok
  · simp at hok
  · simp at hok
  · simp at hok
  · simp at hok
  refine ⟨?_, rfl, rfl, ?_⟩
  · rw [templatesOf]
    simp only [List.filter_append]
    rw [show db.templates.filter (fun t => t.userId == db.nextId) = [] from
      List.filter_eq_nil_iff.mpr (fun t ht => by simpa using hfresh t ht)]
    simp [seededTemplate]
  · intro uid
    rw [defaultTemplatesOf]
    simp only [List.filter_append, List.length_append]
    by_cases huid : uid = db.nextId
    · subst huid
      rw [show db.templates.filter
            (fun t => t.userId == db.nextId && t.isDefault) = [] from
        List.filter_eq_nil_iff.mpr (fun t ht => by
          simp only [Bool.and_eq_true, beq_iff_eq]
          rintro ⟨h, -⟩
          exact hfresh t ht h)]
      simp [seededTemplate]
    · have hc : ((seededTemplate db).userId == uid &&
          (seededTemplate db).isDefault) = false := by
        simp only [seededTemplate, Bool.and_eq_true, beq_iff_eq,
          Bool.and_eq_false_imp, beq_eq_false_iff_ne, ne_eq]
        exact fun h => absurd h.symm huid
      rw [show List.filter (fun t => t.userId == uid && t.isDefault)
            [seededTemplate db] = [] from by simp [List.filter, hc]]
      have := hinv uid
      rw [defaultTemplatesOf] at this
      simpa using this

/-- A fresh database, a well-formed registration request for a new email, an
all-steps-succeed oracle, and the oracle where template creation fails. -/
def wDb : Database := ⟨[], [], 0⟩

/-- A well-formed registration request used in witnesses. -/
def wRegReq : RegisterReq :=
  ⟨"bob@example.com", "secret1", "Bob", "Builder", "", "", "", "", "", "",
    "", "", "", none, none, true⟩

/-- The oracle where every external step of registration succeeds. -/
def wOracleOk : RegisterOracle := ⟨true, true, true⟩

/-- The oracle where template creation throws after the user was created. -/
def wOracleTmplFail : RegisterOracle := ⟨true, true, false⟩

/-- Witness for C5 on a fresh database and a successful registration. -/
theorem C5_register_seeds_unique_default_witness :
    atMostOneDefault wDb ∧ (∀ t ∈ wDb.templates, t.userId ≠ wDb.nextId) ∧
      (register wDb wRegReq wOracleOk (fun s => s)).1.status = 201 ∧
      (templatesOf (register wDb wRegReq wOracleOk (fun s => s)).2 wDb.nextId =
          [seededTemplate wDb] ∧
        (seededTemplate wDb).isDefault = true ∧
        (seededTemplate wDb).isActive = true ∧
        atMostOneDefault (register wDb wRegReq wOracleOk (fun s => s)).2) := by
  refine ⟨fun uid => by simp [defaultTemplatesOf, wDb],
    fun t ht => by simp [wDb] at ht, rfl,
    C5_register_seeds_unique_default wDb wRegReq wOracleOk (fun s => s)
      (fun uid => by simp [defaultTemplatesOf, wDb])
      (fun t ht => by simp [wDb] at ht) rfl⟩

end InvoiceGen

namespace InvoiceGen

/-- C6 counterexample: with a fresh database and a well-formed request, if
template creation fails after user creation, the endpoint responds with an
error (500) yet the user record created during the request remains
persisted, contradicting the claim that error responses leave no created
record behind. -/
theorem C6_register_not_atomic_counterexample :
    (register wDb wRegReq wOracleTmplFail (fun s => s)).1.status = 500 ∧
      (register wDb wRegReq wOracleTmplFail (fun s => s)).2.users ≠
        wDb.users := by
  exact ⟨rfl, by decide⟩

/-- C6 (amended): errors raised before user creation — validation failure
(400), bcrypt failure (500), user-creation failure (500) — leave the
persisted state unchanged; but when template creation fails after the user
was created, the handler responds 500 while the user record created during
the request remains persisted (and no template is created). -/
theorem C6_register_error_state (db : Database) (req : RegisterReq)
    (o : RegisterOracle) (hash : String → String) (b1 b2 : Bool)
    (hv : req.valOk = true)
    (hdup : findUserByEmail db.users req.email = none)
    (hh : o.hashOk = true) (hu : o.userCreateOk = true)
    (ht : o.templateCreateOk = false) :
    (register db { req with valOk := false } o hash).1.status = 400 ∧
      (register db { req with valOk := false } o hash).2 = db ∧
      (register db req ⟨false, b1, b2⟩ hash).1.status = 500 ∧
      (register db req ⟨false, b1, b2⟩ hash).2 = db ∧
      (register db req ⟨true, false, b2⟩ hash).1.status = 500 ∧
      (register db req ⟨true, false, b2⟩ hash).2 = db ∧
      (register db req o hash).1.status = 500 ∧
      (register db req o hash).2.users = db.users ++ [createdUser db req hash] ∧
      (register db req o hash).2.templates = db.templates := by
  refine ⟨by simp [register], by simp [register], ?_, ?_, ?_, ?_, ?_, ?_, ?_⟩ <;>
    simp [register, hv, hdup, hh, hu, ht]

/-- Witness for C6 (amended) at the fresh database and failing-template
oracle. -/
theorem C6_register_error_state_witness :
    wRegReq.valOk = true ∧
      findUserByEmail wDb.users wRegReq.email = none ∧
      wOracleTmplFail.hashOk = true ∧ wOracleTmplFail.userCreateOk = true ∧
      wOracleTmplFail.templateCreateOk = false ∧
      ((register wDb { wRegReq with valOk := false } wOracleTmplFail
          (fun s => s)).1.status = 400 ∧
        (register wDb { wRegReq with valOk := false } wOracleTmplFail
          (fun s => s)).2 = wDb ∧
        (register wDb wRegReq ⟨false, true, false⟩ (fun s => s)).1.status = 500 ∧
        (register wDb wRegReq ⟨false, true, false⟩ (fun s => s)).2 = wDb ∧
        (register wDb wRegReq ⟨true, false, false⟩ (fun s => s)).1.status = 500 ∧
        (register wDb wRegReq ⟨true, false, false⟩ (fun s => s)).2 = wDb ∧
        (register wDb wRegReq wOracleTmplFail (fun s => s)).1.status = 500 ∧
        (register wDb wRegReq wOracleTmplFail (fun s => s)).2.users =
          wDb.users ++ [createdUser wDb wRegReq (fun s => s)] ∧
        (register wDb wRegReq wOracleTmplFail (fun s => s)).2.templates =
          wDb.templates) :=
  ⟨rfl, rfl, rfl, rfl, rfl,
    C6_register_error_state wDb wRegReq wOracleTmplFail (fun s => s) true false
      rfl rfl rfl rfl rfl⟩

end InvoiceGen

namespace InvoiceGen

/-- C9: A login request whose email matches no user and a login request with
an existing email but a wrong password receive the identical response:
status 401 with message `Invalid credentials`, so the endpoint does not
reveal whether an account exists for a given email. -/
theorem C9_login_no_account_probe (db : Database) (r1 r2 : LoginReq)
    (compare : String → String → Bool) (u : UserRec)
    (h1v : r1.valOk = true) (h2v : r2.valOk = true)
    (h1 : findUserByEmail db.users r1.email = none)
    (h2 : findUserByEmail db.users r2.email = some u)
    (hpw : compare r2.password u.password = false) :
    login db r1 compare = login db r2 compare ∧
      login db r1 compare = ⟨401, false, "Invalid credentials", []⟩ := by
  constructor <;> simp [login, h1v, h2v, h1, h2, hpw]

/-- Alice's stored user record in the login and refresh witnesses. -/
def wAlice : UserRec :=
  ⟨0, "alice@example.com", "pw", "Alice", "A", "", "", "", "", "", "", "",
    "", "", "USD", "UTC", "", ""⟩

/-- The one-user database of the login and refresh witnesses. -/
def wAuthDb : Database := ⟨[wAlice], [], 1⟩

/-- Witness for C9: unknown email versus Alice's email with a wrong
password, under string-equality comparison. -/
theorem C9_login_no_account_probe_witness :
    (LoginReq.mk "bob@example.com" "whatever" true).valOk = true ∧
      (LoginReq.mk "alice@example.com" "wrong" true).valOk = true ∧
      findUserByEmail wAuthDb.users "bob@example.com" = none ∧
      findUserByEmail wAuthDb.users "alice@example.com" = some wAlice ∧
      (fun a b : String => a == b) "wrong" wAlice.password = false ∧
      login wAuthDb (LoginReq.mk "bob@example.com" "whatever" true)
          (fun a b => a == b) =
        login wAuthDb (LoginReq.mk "alice@example.com" "wrong" true)
          (fun a b => a == b) ∧
      login wAuthDb (LoginReq.mk "bob@example.com" "whatever" true)
          (fun a b => a == b) =
        ⟨401, false, "Invalid credentials", []⟩ := by
  have h := C9_login_no_account_probe wAuthDb
    (LoginReq.mk "bob@example.com" "whatever" true)
    (LoginReq.mk "alice@example.com" "wrong" true) (fun a b => a == b)
    wAlice rfl rfl (by decide) (by decide) (by decide)
  exact ⟨rfl, rfl, by decide, by decide, by decide, h.1, h.2⟩

end InvoiceGen

namespace InvoiceGen

/-- A successful (201) register response carries exactly the selected fields
of the created user. -/
theorem register_success_fields (db : Database) (req : RegisterReq)
    (o : RegisterOracle) (hash : String → String)
    (h : (register db req o hash).1.status = 201) :
    (register db req o hash).1.userFields =
      registerSelectFields (createdUser db req hash) := by
  unfold register at h ⊢
  split_ifs at h ⊢
  · simp at h
  · simp at h
  · simp at h
  · simp at h
  · simp at h
  · rfl

/-- A successful (200) login response carries exactly the hand-built
`userData` fields of the matched user. -/
theorem login_success_fields (db : Database) (req : LoginReq)
    (compare : String → String → Bool)
    (h : (login db req compare).status = 200) :
    ∃ u, findUserByEmail db.users req.email = some u ∧
      (login db req compare).userFields = loginUserData u := by
  by_cases hv : req.valOk = true
  · cases hfind : findUserByEmail db.users req.email with
    | none => simp [login, hv, hfind] at h
    | some u =>
      by_cases hc : compare req.password u.password = true
      · exact ⟨u, rfl, by simp [login, hv, hfind, hc]⟩
      · have hc2 : compare req.password u.password = false := by
          cases hcc : compare req.password u.password
          · rfl
          · exact absurd hcc hc
        simp [login, hv, hfind, hc2] at h
  · have hv2 : req.valOk = false := by
      cases hvv : req.valOk
      · rfl
      · exact absurd hvv hv
    simp [login, hv2] at h

/-- A successful (200) refresh response carries exactly the selected fields
of the matched user. -/
theorem refresh_success_fields (db : Database) (tok : Option String)
    (verify : String → Option Nat)
    (h : (refresh db tok verify).status = 200) :
    ∃ u, (refresh db tok verify).userFields = refreshSelectFields u := by
  cases tok with
  | none => simp [refresh] at h
  | some s =>
    by_cases he : s.isEmpty = true
    · simp [refresh, he] at h
    · cases hv : verify s with
      | none => simp [refresh, he, hv] at h
      | some uid =>
        cases hf : findUserById db.users uid with
        | none => simp [refresh, he, hv, hf] at h
        | some u => exact ⟨u, by simp [refresh, he, hv, hf]⟩

/-- C10: Successful register, login and token-refresh responses expose only
the selected user fields — id, email, firstName, lastName, company, logo,
currency, timezone, and createdAt where selected (register and login) — and
never a `password` key, so the stored password hash is not returned. -/
theorem C10_responses_omit_password (db : Database) (req : RegisterReq)
    (o : RegisterOracle) (hash : String → String) (lreq : LoginReq)
    (compare : String → String → Bool) (tok : Option String)
    (verify : String → Option Nat)
    (hreg : (register db req o hash).1.status = 201)
    (hlog : (login db lreq compare).status = 200)
    (href : (refresh db tok verify).status = 200) :
    fieldKeys (register db req o hash).1.userFields =
        ["id", "email", "firstName", "lastName", "company", "logo",
          "currency", "timezone", "createdAt"] ∧
      "password" ∉ fieldKeys (register db req o hash).1.userFields ∧
      fieldKeys (login db lreq compare).userFields =
        ["id", "email", "firstName", "lastName", "company", "logo",
          "currency", "timezone", "createdAt"] ∧
      "password" ∉ fieldKeys (login db lreq compare).userFields ∧
      fieldKeys (refresh db tok verify).userFields =
        ["id", "email", "firstName", "lastName", "company", "logo",
          "currency", "timezone"] ∧
      "password" ∉ fieldKeys (refresh db tok verify).userFields := by
  have h1 := register_success_fields db req o hash hreg
  obtain ⟨u2, -, h2⟩ := login_success_fields db lreq compare hlog
  obtain ⟨u3, h3⟩ := refresh_success_fields db tok verify href
  rw [h1, h2, h3]
  refine ⟨rfl, ?_, rfl, ?_, rfl, ?_⟩ <;>
    simp [fieldKeys, registerSelectFields, loginUserData, refreshSelectFields]

/-- Witness for C10: a database with Alice, a fresh registration for Bob, a
correct-password login for Alice, and a refresh resolving to Alice, all
succeeding. -/
theorem C10_responses_omit_password_witness :
    (register wAuthDb wRegReq wOracleOk (fun s => s)).1.status = 201 ∧
      (login wAuthDb (LoginReq.mk "alice@example.com" "pw" true)
        (fun a b => a == b)).status = 200 ∧
      (refresh wAuthDb (some "tok") (fun _ => some 0)).status = 200 ∧
      (fieldKeys (register wAuthDb wRegReq wOracleOk (fun s => s)).1.userFields =
          ["id", "email", "firstName", "lastName", "company", "logo",
            "currency", "timezone", "createdAt"] ∧
        "password" ∉
          fieldKeys (register wAuthDb wRegReq wOracleOk (fun s => s)).1.userFields ∧
        fieldKeys (login wAuthDb (LoginReq.mk "alice@example.com" "pw" true)
            (fun a b => a == b)).userFields =
          ["id", "email", "firstName", "lastName", "company", "logo",
            "currency", "timezone", "createdAt"] ∧
        "password" ∉
          fieldKeys (login wAuthDb (LoginReq.mk "alice@example.com" "pw" true)
            (fun a b => a == b)).userFields ∧
        fieldKeys (refresh wAuthDb (some "tok") (fun _ => some 0)).userFields =
          ["id", "email", "firstName", "lastName", "company", "logo",
            "currency", "timezone"] ∧
        "password" ∉
          fieldKeys (refresh wAuthDb (some "tok") (fun _ => some 0)).userFields) :=
  ⟨by decide, by decide, by decide,
    C10_responses_omit_password wAuthDb wRegReq wOracleOk (fun s => s)
      (LoginReq.mk "alice@example.com" "pw" true) (fun a b => a == b)
      (some "tok") (fun _ => some 0) (by decide) (by decide) (by decide)⟩

end InvoiceGen
